import Mathlib

/-
Verification of the peer-discovery / session-protocol / round-resolution
core of the two-player Rock-Paper-Scissors LAN application
(src/src/rps_app.py).  Byte strings exchanged on the wire and the string
fields of the Python objects are modelled as `List Char`; Python integers
are modelled as `Int` (Python `%` on a positive divisor agrees with
`Int.emod`); Python `None` / truthiness is modelled with `Option` plus
explicit truthiness functions.
-/

namespace RpsApp

/-- Cumulative profile counters (`user_profile["wins"|"loses"|"ties"]`). -/
structure Profile where
  wins : Int
  loses : Int
  ties : Int
deriving Repr, DecidableEq

/-- The three legal game choices, used to quantify over the values
`"Rock"`, `"Paper"`, `"Scissors"` that the GUI and the peer produce. -/
inductive Choice where
  | Rock
  | Paper
  | Scissors
deriving Repr, DecidableEq

/-- The string `"Rock"`. -/
def rockStr : List Char := ['R', 'o', 'c', 'k']

/-- The string `"Paper"`. -/
def paperStr : List Char := ['P', 'a', 'p', 'e', 'r']

/-- The string `"Scissors"`. -/
def scissorsStr : List Char := ['S', 'c', 'i', 's', 's', 'o', 'r', 's']

/-- The wire/GUI string of a choice. -/
def choiceStr : Choice → List Char
  | .Rock => rockStr
  | .Paper => paperStr
  | .Scissors => scissorsStr

/-- The numeric value the dict `{"Rock": 0, "Paper": 1, "Scissors": 2}`
(rps_app.py line 1528) assigns to each of the three legal choices. -/
def choiceVal : Choice → Int
  | .Rock => 0
  | .Paper => 1
  | .Scissors => 2

/-- Lookup in the dict `choices = {"Rock": 0, "Paper": 1, "Scissors": 2}`
of `App.determine_results`; `none` models the `KeyError` raised on any
other string. -/
def choices_map (s : List Char) : Option Int :=
  if s = rockStr then some 0
  else if s = paperStr then some 1
  else if s = scissorsStr then some 2
  else none

/-- Result of one call of `App.determine_results` (rps_app.py 1521-1551):
the updated profile, the updated `current_round`, the choice fields after
the call, and whether the host sent the `game_complete` disconnect. -/
structure DetermineOut where
  profile : Profile
  current_round : Int
  player_choice : Option (List Char)
  opponent_choice : Option (List Char)
  sentGameComplete : Bool
deriving Repr, DecidableEq

/-- `App.determine_results` (rps_app.py 1521-1551).  `result =
(choices[player] - choices[opponent]) % 3`; `0` increments ties, `1`
wins, anything else loses.  Then, if `current_round < total_rounds`, the
round counter is incremented and both choices are cleared; otherwise the
state is left as is and, when the server thread is alive (`hostAlive`),
`server.stop("game_complete")` is sent.  The two branches of the final
`if` are merged into one record with a per-field `if`; `none` models the
`KeyError` on a choice string outside the dict. -/
def determine_results (hostAlive : Bool) (p o : List Char) (cur tot : Int)
    (prof : Profile) : Option DetermineOut :=
  match choices_map p, choices_map o with
  | some pi, some oi =>
    let r := (pi - oi) % 3
    let prof' :=
      if r = 0 then { prof with ties := prof.ties + 1 }
      else if r = 1 then { prof with wins := prof.wins + 1 }
      else { prof with loses := prof.loses + 1 }
    some
      { profile := prof'
        current_round := if cur < tot then cur + 1 else cur
        player_choice := if cur < tot then none else some p
        opponent_choice := if cur < tot then none else some o
        sentGameComplete := if cur < tot then false else hostAlive }
  | _, _ => none

/-- The string `"player"` (dropout actor: the side that observed the peer
vanish). -/
def playerStr : List Char := ['p', 'l', 'a', 'y', 'e', 'r']

/-- The string `"quitter"` (dropout actor: the side that quit mid-game). -/
def quitterStr : List Char := ['q', 'u', 'i', 't', 't', 'e', 'r']

/-- `App.dropout_resolution` (rps_app.py 1553-1572).  `rounds =
total_rounds - (current_round - 1)`; actor `"player"` credits that many
wins, actor `"quitter"` that many losses, any other actor string leaves
the profile unchanged. -/
def dropout_resolution (actor : List Char) (cur tot : Int)
    (prof : Profile) : Profile :=
  let rounds := tot - (cur - 1)
  if actor = playerStr then { prof with wins := prof.wins + rounds }
  else if actor = quitterStr then { prof with loses := prof.loses + rounds }
  else prof

/-- The winning pairs of the classic rules, written from the spec table
(`Rock` beats `Scissors`, `Paper` beats `Rock`, `Scissors` beats
`Paper`); compared against the modular-arithmetic law of the code. -/
def spec_beats : Choice → Choice → Bool
  | .Rock, .Scissors => true
  | .Paper, .Rock => true
  | .Scissors, .Paper => true
  | _, _ => false

/-- `choices_map` on a legal choice string returns its dict value. -/
theorem choices_map_choiceStr (a : Choice) :
    choices_map (choiceStr a) = some (choiceVal a) := by
  cases a <;> rfl

/-- C1: round resolution computes `delta = (local - remote) mod 3` under
`Rock=0, Paper=1, Scissors=2` and increments ties on `delta = 0` (iff the
choices are equal), wins on `delta = 1` (iff local beats remote per the
classic table), and loses on `delta = 2` (iff remote beats local). -/
theorem determine_results_resolution (a b : Choice) (hostAlive : Bool)
    (cur tot : Int) (prof : Profile) (out : DetermineOut)
    (h : determine_results hostAlive (choiceStr a) (choiceStr b) cur tot prof
      = some out) :
    ((choiceVal a - choiceVal b) % 3 = 0 ↔ a = b) ∧
    ((choiceVal a - choiceVal b) % 3 = 1 ↔ spec_beats a b = true) ∧
    ((choiceVal a - choiceVal b) % 3 = 2 ↔ spec_beats b a = true) ∧
    out.profile.ties = prof.ties + (if a = b then 1 else 0) ∧
    out.profile.wins = prof.wins + (if spec_beats a b then 1 else 0) ∧
    out.profile.loses = prof.loses + (if spec_beats b a then 1 else 0) := by
  cases a <;> cases b <;>
    simp only [determine_results, choices_map_choiceStr, choiceVal,
      spec_beats, Option.some.injEq] at h ⊢ <;>
    subst h <;> norm_num <;> decide

/-- Witness for C1 at `(Rock, Scissors)`: the host wins and the win
counter advances by one. -/
theorem determine_results_resolution_witness :
    ((0 : Int) - 2) % 3 = 1 ∧
    (DetermineOut.mk ⟨1, 0, 0⟩ 2 none none false).profile.wins =
      (Profile.mk 0 0 0).wins + 1 := by
  have h := determine_results_resolution Choice.Rock Choice.Scissors true 1 3
    ⟨0, 0, 0⟩ ⟨⟨1, 0, 0⟩, 2, none, none, false⟩ (by decide)
  exact ⟨h.2.1.mpr (by decide), h.2.2.2.2.1.trans (by decide)⟩

/-- C2: dropout resolution forfeits `total_rounds - (current_round - 1)`
rounds; actor `"player"` gains exactly that many wins (losses and ties
untouched), actor `"quitter"` exactly that many losses (wins and ties
untouched), never both; at `total_rounds = 5`, `current_round = 3` the
forfeit is 3 rounds. -/
theorem dropout_resolution_forfeit (cur tot : Int) (prof : Profile) :
    dropout_resolution playerStr cur tot prof =
      { prof with wins := prof.wins + (tot - (cur - 1)) } ∧
    dropout_resolution quitterStr cur tot prof =
      { prof with loses := prof.loses + (tot - (cur - 1)) } ∧
    (dropout_resolution playerStr cur tot prof).loses = prof.loses ∧
    (dropout_resolution playerStr cur tot prof).ties = prof.ties ∧
    (dropout_resolution quitterStr cur tot prof).wins = prof.wins ∧
    (dropout_resolution quitterStr cur tot prof).ties = prof.ties ∧
    (dropout_resolution playerStr 3 5 prof).wins = prof.wins + 3 ∧
    (dropout_resolution quitterStr 3 5 prof).loses = prof.loses + 3 := by
  refine ⟨?_, ?_, ?_, ?_, ?_, ?_, ?_, ?_⟩ <;>
    simp [dropout_resolution, playerStr, quitterStr]

/-- Python truthiness of an optional string field (`None` and the empty
string are falsy, any other string is truthy). -/
def truthyStr : Option (List Char) → Bool
  | none => false
  | some l => !l.isEmpty

/-- Python truthiness of an optional int field (`None` and `0` falsy). -/
def truthyInt : Option Int → Bool
  | none => false
  | some n => n != 0

/-- The game-relevant mutable fields of `App`: `player_choice`,
`opponent_choice`, `current_round`, `total_rounds`, `user_profile`
counters.  `current_round` is `none` outside a connected session. -/
structure SessionView where
  player_choice : Option (List Char)
  opponent_choice : Option (List Char)
  current_round : Option Int
  total_rounds : Int
  profile : Profile
deriving Repr, DecidableEq

/-- `App.network_connected` (rps_app.py 1473-1490), game-state part: on a
successful connection `current_round` is set to `1`. -/
def network_connected (s : SessionView) : SessionView :=
  { s with current_round := some 1 }

/-- A call of `App.determine_results` on the full app state: the fields
it reads must be present (a `None` round counter or a choice string
outside the dict would raise, modelled as `none`). -/
def run_determine (hostAlive : Bool) (s : SessionView) : Option SessionView :=
  match s.player_choice, s.opponent_choice, s.current_round with
  | some p, some o, some cur =>
    (determine_results hostAlive p o cur s.total_rounds s.profile).map
      fun out =>
        { s with
          profile := out.profile
          current_round := some out.current_round
          player_choice := out.player_choice
          opponent_choice := out.opponent_choice }
  | _, _, _ => none

/-- The string `"GAME"`. -/
def gameTag : List Char := ['G', 'A', 'M', 'E']

/-- Result of a choice-submission handler (`App.event_rps_chosen` or the
`GAME` branch of a read loop): the app state afterwards (`none` models a
raised exception inside `determine_results`), whether `determine_results`
was triggered, and the stream message sent to the peer, if any. -/
structure SubmitOut where
  state : Option SessionView
  resolved : Bool
  sentGame : Option (List Char)
deriving Repr, DecidableEq

/-- `App.event_rps_chosen` (rps_app.py 1267-1287): unconditionally stores
the submitted value in `player_choice`, sends `GAME<value>` when a
server or client thread is alive, then calls `determine_results` iff
`opponent_choice` is truthy. -/
def event_rps_chosen (serverAlive clientAlive : Bool) (v : List Char)
    (s : SessionView) : SubmitOut :=
  let s1 := { s with player_choice := some v }
  let sent := if serverAlive || clientAlive then some (gameTag ++ v) else none
  if truthyStr s1.opponent_choice then
    { state := run_determine serverAlive s1, resolved := true, sentGame := sent }
  else
    { state := some s1, resolved := false, sentGame := sent }

/-- The `GAME` branch of the stream read loops (`Server.start` rps_app.py
790-796 and `Client.start` 943-949): stores the payload in
`opponent_choice`, then schedules `determine_results` iff
`player_choice` is truthy (`hostSide` selects which loop). -/
def recv_game (hostSide : Bool) (payload : List Char)
    (s : SessionView) : SubmitOut :=
  let s1 := { s with opponent_choice := some payload }
  if truthyStr s1.player_choice then
    { state := run_determine hostSide s1, resolved := true, sentGame := none }
  else
    { state := some s1, resolved := false, sentGame := none }

/-- C3: `current_round` starts at 1 when a connection is established and,
on each resolution, is non-decreasing and never passes `total_rounds`:
below the last round it is incremented by one and both choices are
cleared; at the last round it is left unchanged and the host side sends
the game-complete close. -/
theorem current_round_invariant (s : SessionView) (hostAlive : Bool)
    (a b : Choice) (cur tot : Int) (prof : Profile) :
    (network_connected s).current_round = some 1 ∧
    (∀ out, determine_results hostAlive (choiceStr a) (choiceStr b) cur tot
        prof = some out →
      cur ≤ out.current_round ∧
      (cur ≤ tot → out.current_round ≤ tot) ∧
      (cur < tot → out.current_round = cur + 1 ∧
        out.player_choice = none ∧ out.opponent_choice = none ∧
        out.sentGameComplete = false) ∧
      (cur = tot → out.current_round = cur ∧
        out.sentGameComplete = hostAlive)) := by
  refine ⟨rfl, fun out h => ?_⟩
  rw [determine_results, choices_map_choiceStr, choices_map_choiceStr] at h
  simp only [Option.some.injEq] at h
  subst h
  refine ⟨?_, ?_, ?_, ?_⟩
  · by_cases hc : cur < tot <;> simp [hc]
  · intro hle; by_cases hc : cur < tot <;> simp [hc] <;> omega
  · intro hc; simp [hc]
  · intro hc; subst hc; simp

/-- Witness for C3 at `cur = 2`, `tot = 3`, choices Rock vs Paper. -/
theorem current_round_invariant_witness :
    (network_connected ⟨none, none, none, 3, ⟨0, 0, 0⟩⟩).current_round
        = some 1 ∧
    (DetermineOut.mk ⟨0, 1, 0⟩ 3 none none false).current_round ≤ 3 := by
  have h := current_round_invariant ⟨none, none, none, 3, ⟨0, 0, 0⟩⟩ true
    Choice.Rock Choice.Paper 2 3 ⟨0, 0, 0⟩
  exact ⟨h.1, (h.2 ⟨⟨0, 1, 0⟩, 3, none, none, false⟩ (by decide)).2.1 (by decide)⟩

/-- C4: a round never resolves with one choice missing — a local
submission triggers `determine_results` exactly when the remote choice is
already present, and a received `GAME` message triggers it exactly when
the local choice is already present; the non-completing submission just
records the choice. -/
theorem resolution_needs_both_choices (serverAlive clientAlive hostSide : Bool)
    (v : List Char) (s : SessionView) :
    (event_rps_chosen serverAlive clientAlive v s).resolved
        = truthyStr s.opponent_choice ∧
    (recv_game hostSide v s).resolved = truthyStr s.player_choice ∧
    (truthyStr s.opponent_choice = false →
      (event_rps_chosen serverAlive clientAlive v s).state
        = some { s with player_choice := some v }) ∧
    (truthyStr s.player_choice = false →
      (recv_game hostSide v s).state
        = some { s with opponent_choice := some v }) := by
  refine ⟨?_, ?_, ?_, ?_⟩
  · by_cases h : truthyStr s.opponent_choice <;>
      simp [event_rps_chosen, h]
  · by_cases h : truthyStr s.player_choice <;> simp [recv_game, h]
  · intro h; simp [event_rps_chosen, h]
  · intro h; simp [recv_game, h]

/-- Witness for C4: with no remote choice pending, submitting Rock does
not resolve the round and only records the local choice. -/
theorem resolution_needs_both_choices_witness :
    (event_rps_chosen true false rockStr
      ⟨none, none, some 1, 3, ⟨0, 0, 0⟩⟩).resolved = false ∧
    (event_rps_chosen true false rockStr
      ⟨none, none, some 1, 3, ⟨0, 0, 0⟩⟩).state
        = some ⟨some rockStr, none, some 1, 3, ⟨0, 0, 0⟩⟩ := by
  have h := resolution_needs_both_choices true false true rockStr
    ⟨none, none, some 1, 3, ⟨0, 0, 0⟩⟩
  exact ⟨h.1.trans (by decide), h.2.2.1 (by decide)⟩

/-- A session state with a local choice already pending. -/
def pendingState : SessionView :=
  { player_choice := some rockStr
    opponent_choice := none
    current_round := some 1
    total_rounds := 3
    profile := ⟨0, 0, 0⟩ }

/-- C6 counterexample: submitting `Paper` while `Rock` is already pending
is not rejected — `event_rps_chosen` overwrites the pending choice with
the new value and completes normally. -/
theorem event_rps_chosen_overwrites :
    (event_rps_chosen true false paperStr pendingState).state
      = some { pendingState with player_choice := some paperStr } ∧
    (event_rps_chosen true false paperStr pendingState).state
      ≠ some pendingState := by
  refine ⟨rfl, by decide⟩

/-- C6 amended: submitting a local choice while one is already pending
(remote choice absent) is not rejected and is not a no-op: the handler
unconditionally overwrites `player_choice` with the new value. -/
theorem event_rps_chosen_overwrite_general (serverAlive clientAlive : Bool)
    (v : List Char) (s : SessionView)
    (h : s.opponent_choice = none) :
    (event_rps_chosen serverAlive clientAlive v s).state
      = some { s with player_choice := some v } ∧
    (event_rps_chosen serverAlive clientAlive v s).resolved = false := by
  constructor <;> simp [event_rps_chosen, h, truthyStr]

/-- Witness for the amended C6: overwriting `Rock` with `Scissors`. -/
theorem event_rps_chosen_overwrite_general_witness :
    (event_rps_chosen false true scissorsStr pendingState).state
      = some { pendingState with player_choice := some scissorsStr } := by
  exact (event_rps_chosen_overwrite_general false true scissorsStr
    pendingState rfl).1

/-- Python `bytes.startswith`: `strStarts s p` is true when `p` is an
initial segment of `s`. -/
def strStarts : List Char → List Char → Bool
  | _, [] => true
  | [], _ :: _ => false
  | c :: cs, d :: ds => c == d && strStarts cs ds

/-- Python `str.split(',')`: splits on every comma; the empty string
yields one empty field. -/
def splitOnComma : List Char → List (List Char)
  | [] => [[]]
  | c :: cs =>
    let r := splitOnComma cs
    if c = ',' then [] :: r
    else
      match r with
      | h :: t => (c :: h) :: t
      | [] => [[c]]

/-- The string `"LOOKUP"`. -/
def lookupTag : List Char := ['L', 'O', 'O', 'K', 'U', 'P']

/-- The string `"CONNECT"`. -/
def connectTag : List Char := ['C', 'O', 'N', 'N', 'E', 'C', 'T']

/-- The string `"DISCONNECT"`. -/
def disconnectTag : List Char := ['D', 'I', 'S', 'C', 'O', 'N', 'N', 'E', 'C', 'T']

/-- The string `"CHAT"`. -/
def chatTag : List Char := ['C', 'H', 'A', 'T']

/-- The string `"mid_game"`. -/
def midGameStr : List Char := ['m', 'i', 'd', '_', 'g', 'a', 'm', 'e']

/-- The string `"no_game"`. -/
def noGameStr : List Char := ['n', 'o', '_', 'g', 'a', 'm', 'e']

/-- The string `"game_complete"`. -/
def gameCompleteStr : List Char :=
  ['g', 'a', 'm', 'e', '_', 'c', 'o', 'm', 'p', 'l', 'e', 't', 'e']

/-- A UDP datagram as seen by a receive call: its decoded content and the
sender's address. -/
structure Datagram where
  content : List Char
  sourceIp : List Char
deriving Repr, DecidableEq

/-- One entry of the list `Network.discover_servers` returns:
`(addr[0], server_port, username, total_rounds)`, all strings. -/
structure HostRecord where
  ip : List Char
  serverPort : List Char
  username : List Char
  totalRounds : List Char
deriving Repr, DecidableEq

/-- The collection loop of `Network.discover_servers` (rps_app.py
704-713) over the datagrams received before the socket timeout: each
response splitting into exactly 3 comma-separated fields is appended to
the accumulated list, all others are discarded. -/
def discover_servers (rs : List Datagram) : List HostRecord :=
  rs.foldl
    (fun acc d =>
      match splitOnComma d.content with
      | [sp, un, tr] => acc ++ [⟨d.sourceIp, sp, un, tr⟩]
      | _ => acc)
    []

/-- A whole `Network.discover_servers` call (rps_app.py 689-721): the
datagrams it sends, the receive timeout it sets (`settimeout(5)`), and
the list it returns after the timeout ends collection. -/
structure DiscoverRun where
  sent : List (List Char)
  timeoutSeconds : Nat
  result : List HostRecord
deriving Repr, DecidableEq

/-- `Network.discover_servers` sends one `LOOKUP` broadcast, sets a
5-second receive timeout, and returns the collected list; the timeout is
caught (`except socket.timeout: break`), so the call returns normally on
every input, modelled by totality of this function. -/
def discover_servers_run (rs : List Datagram) : DiscoverRun :=
  { sent := [lookupTag], timeoutSeconds := 5, result := discover_servers rs }

/-- C7: discovery sends exactly one `LOOKUP` broadcast, collects for a
fixed 5-second window, returns (rather than raising) on every sequence of
received datagrams, and returns the empty list when nothing answered. -/
theorem discover_servers_empty_ok (rs : List Datagram) :
    (discover_servers_run rs).sent = [lookupTag] ∧
    (discover_servers_run rs).timeoutSeconds = 5 ∧
    discover_servers_run rs =
      ⟨[lookupTag], 5, discover_servers rs⟩ ∧
    (discover_servers_run []).result = [] := by
  exact ⟨rfl, rfl, rfl, rfl⟩

/-- What one blocking `recv(1024)` call on the stream socket yields: a
non-empty chunk of bytes, a zero-length read (peer closed), or a raised
socket error. -/
inductive RecvData where
  | chunk (m : List Char)
  | closed
  | ioError
deriving Repr, DecidableEq

/-- How the read loop of `Server.start` / `Client.start` was left: a
`break` (`DISCONNECT` message or zero-length read) or a raised exception
caught by the surrounding `except` clause. -/
inductive ExitKind where
  | normalExit
  | errorExit
deriving Repr, DecidableEq

/-- Result of running a stream read loop over a sequence of receives:
the app state afterwards (`none` models a dispatched
`determine_results` raising), how the loop was left (`none` when the
input ran out with the loop still blocked), whether
`dropout_resolution("player")` was scheduled, and the chat texts
forwarded. -/
structure LoopOut where
  session : Option SessionView
  exit : Option ExitKind
  dropoutPlayer : Bool
  chats : List (List Char)
deriving Repr, DecidableEq

/-- The read loop shared by `Server.start` (rps_app.py 775-796) and
`Client.start` (928-949): a zero-length read breaks; `DISCONNECT<stage>`
breaks and schedules `dropout_resolution("player")` iff the stage is
`mid_game`; `CHAT<text>` forwards the text; `GAME<choice>` stores the
remote choice and resolves iff the local choice is present; anything
else falls through and the loop continues; a socket error exits to the
`except` clause. -/
def session_loop (hostSide : Bool) : List RecvData → SessionView → LoopOut
  | [], s => ⟨some s, none, false, []⟩
  | .closed :: _, s => ⟨some s, some .normalExit, false, []⟩
  | .ioError :: _, s => ⟨some s, some .errorExit, false, []⟩
  | .chunk m :: rest, s =>
    if strStarts m disconnectTag then
      ⟨some s, some .normalExit, m.drop disconnectTag.length == midGameStr, []⟩
    else
      let cs := if strStarts m chatTag then [m.drop chatTag.length] else []
      if strStarts m gameTag then
        match (recv_game hostSide (m.drop gameTag.length) s).state with
        | some s1 =>
          let r := session_loop hostSide rest s1
          ⟨r.session, r.exit, r.dropoutPlayer, cs ++ r.chats⟩
        | none => ⟨none, none, false, cs⟩
      else
        let r := session_loop hostSide rest s
        ⟨r.session, r.exit, r.dropoutPlayer, cs ++ r.chats⟩

/-- Cleanup observed after a read loop ends: whether the role's
socket(s) were closed and how many disconnected notifications were
emitted. -/
structure StartOutcome where
  socketsClosed : Bool
  notifications : Nat
deriving Repr, DecidableEq

/-- Cleanup of `Server.start` (rps_app.py 798-809): the two `close()`
calls sit inside the `try` body after the loop, so they run only on a
`break`; an exception skips them; the `finally` clause emits the
disconnected notification when GUI updates are allowed. -/
def server_start_outcome (allow : Bool) (evs : List RecvData)
    (s : SessionView) : Option StartOutcome :=
  match (session_loop true evs s).exit with
  | some .normalExit => some ⟨true, if allow then 1 else 0⟩
  | some .errorExit => some ⟨false, if allow then 1 else 0⟩
  | none => none

/-- Cleanup of `Client.start` (rps_app.py 955-963): `close()` and the
disconnected notification both sit in the `finally` clause, so they run
on every exit. -/
def client_start_outcome (allow : Bool) (evs : List RecvData)
    (s : SessionView) : Option StartOutcome :=
  match (session_loop false evs s).exit with
  | some _ => some ⟨true, if allow then 1 else 0⟩
  | none => none

/-- A freshly connected session state used for concrete runs. -/
def connectedState : SessionView :=
  { player_choice := none
    opponent_choice := none
    current_round := some 1
    total_rounds := 3
    profile := ⟨0, 0, 0⟩ }

/-- C5 counterexample: on the host, a read loop ended by an I/O error
emits the one disconnected notification but leaves the sockets open —
the claim that the socket is closed on all three exit causes fails at
the concrete input `[ioError]`. -/
theorem server_error_exit_skips_close :
    server_start_outcome true [RecvData.ioError] connectedState
        = some ⟨false, 1⟩ ∧
    server_start_outcome true [RecvData.ioError] connectedState
        ≠ some ⟨true, 1⟩ := by
  exact ⟨rfl, by decide⟩

/-- C5 amended: whenever a read loop exits (`DISCONNECT` message,
zero-length read, or I/O error), exactly one disconnected notification
is emitted on either role; the joiner's socket is always closed, but the
host's sockets are closed only when the exit was a `break`
(`DISCONNECT` or zero-length read), not when it was an I/O error. -/
theorem read_loop_exit_cleanup (evs : List RecvData) (s : SessionView) :
    (∀ o, client_start_outcome true evs s = some o →
      o.socketsClosed = true ∧ o.notifications = 1) ∧
    (∀ o, server_start_outcome true evs s = some o →
      o.notifications = 1 ∧
      (o.socketsClosed = true ↔
        (session_loop true evs s).exit = some ExitKind.normalExit)) := by
  constructor
  · intro o ho
    cases hE : (session_loop false evs s).exit with
    | none => simp [client_start_outcome, hE] at ho
    | some e =>
      simp [client_start_outcome, hE] at ho
      simp [← ho]
  · intro o ho
    cases hE : (session_loop true evs s).exit with
    | none => simp [server_start_outcome, hE] at ho
    | some e =>
      cases e <;> simp [server_start_outcome, hE] at ho <;>
        simp [← ho, hE]

/-- Witness for the amended C5: a zero-length read on either role closes
the socket(s) and notifies exactly once. -/
theorem read_loop_exit_cleanup_witness :
    (StartOutcome.mk true 1).socketsClosed = true ∧
    (StartOutcome.mk true 1).notifications = 1 := by
  exact (read_loop_exit_cleanup [RecvData.closed] connectedState).1
    ⟨true, 1⟩ (by decide)

/-- The reply `f"{server_port},{username},{total_rounds}"` a listening
host sends to a `LOOKUP` (rps_app.py 834). -/
def lookup_reply (sp : Int) (user : List Char) (tr : Int) : List Char :=
  (toString sp).toList ++ ',' :: user ++ ',' :: (toString tr).toList

/-- The `CONNECT` branch test of `Server.broadcast_listen` (rps_app.py
837-841): a datagram starting with `CONNECT` whose payload splits into
exactly two comma-separated fields, the first of which equals this
host's own address, yields the requester's username. -/
def connect_accept (localIp : List Char) (d : Datagram) :
    Option (List Char) :=
  if strStarts d.content connectTag then
    match splitOnComma (d.content.drop connectTag.length) with
    | [reqIp, uname] => if reqIp = localIp then some uname else none
    | _ => none
  else none

/-- Why `Server.broadcast_listen` stopped: it accepted a `CONNECT` or it
received the self-cancel `DISCONNECT` datagram. -/
inductive ListenExit where
  | connectAccepted
  | disconnectMsg
deriving Repr, DecidableEq

/-- Observable result of a `Server.broadcast_listen` run: lookup replies
sent, the recorded requester username (if a `CONNECT` was accepted), the
number of `ACK` datagrams sent, whether `launch_server` was scheduled,
why the loop stopped (`none` when it is still listening), and whether
the disconnected notification was scheduled. -/
structure ListenResult where
  replies : List (List Char)
  accepted : Option (List Char)
  acks : Nat
  launched : Bool
  stop : Option ListenExit
  notified : Bool
deriving Repr, DecidableEq

/-- `Server.broadcast_listen` (rps_app.py 822-859) over the datagrams
received: `LOOKUP` gets the host-record reply; an accepted `CONNECT`
records the username, sends one `ACK`, schedules `launch_server` and
breaks; the exact datagram `DISCONNECT` schedules the disconnected
notification (when GUI updates are allowed) and breaks; everything else
is ignored and the loop continues. -/
def broadcast_listen (allow : Bool) (localIp user : List Char)
    (sp tr : Int) : List Datagram → ListenResult
  | [] => ⟨[], none, 0, false, none, false⟩
  | d :: rest =>
    let rep :=
      if strStarts d.content lookupTag then [lookup_reply sp user tr] else []
    match connect_accept localIp d with
    | some uname =>
      ⟨rep, some uname, 1, true, some .connectAccepted, false⟩
    | none =>
      if d.content = disconnectTag then
        ⟨rep, none, 0, false, some .disconnectMsg, allow⟩
      else
        let r := broadcast_listen allow localIp user sp tr rest
        ⟨rep ++ r.replies, r.accepted, r.acks, r.launched, r.stop, r.notified⟩

/-- A string extended to the right still starts with itself. -/
theorem strStarts_append (p s : List Char) : strStarts (p ++ s) p = true := by
  induction p with
  | nil => cases s <;> rfl
  | cons c cs ih => simp [strStarts, ih]

/-- Splitting a comma-free string yields that one field. -/
theorem splitOnComma_no_comma (l : List Char) (h : ',' ∉ l) :
    splitOnComma l = [l] := by
  induction l with
  | nil => rfl
  | cons c cs ih =>
    simp only [List.mem_cons, not_or] at h
    rw [splitOnComma, ih h.2]
    simp [Ne.symm h.1]

/-- Splitting at the first comma after a comma-free field isolates that
field. -/
theorem splitOnComma_append (l₁ l₂ : List Char) (h : ',' ∉ l₁) :
    splitOnComma (l₁ ++ ',' :: l₂) = l₁ :: splitOnComma l₂ := by
  induction l₁ with
  | nil => simp [splitOnComma]
  | cons c cs ih =>
    simp only [List.mem_cons, not_or] at h
    rw [List.cons_append, splitOnComma, ih h.2]
    simp [Ne.symm h.1]

/-- A string starting with `CONNECT` starts with neither `LOOKUP` nor
`DISCONNECT`, and is not the datagram `DISCONNECT` itself. -/
theorem connect_not_lookup (s : List Char)
    (h : strStarts s connectTag = true) :
    strStarts s lookupTag = false ∧ s ≠ disconnectTag := by
  cases s with
  | nil => simp [strStarts, connectTag] at h
  | cons c cs =>
    simp only [connectTag, strStarts, Bool.and_eq_true, beq_iff_eq] at h
    obtain ⟨h1, h2⟩ := h
    subst h1
    exact ⟨by simp [strStarts, lookupTag], by simp [disconnectTag]⟩

/-- C8: the broadcast listener sends at most one `ACK` per run; a
`CONNECT` addressed to this host's own address records the requester's
username, sends one `ACK`, schedules the transition into hosting mode
and stops the loop (later datagrams are never processed); the
self-cancel `DISCONNECT` stops the loop without accepting anything. -/
theorem broadcast_listen_single_accept (allow : Bool)
    (ip user : List Char) (sp tr : Int) :
    (∀ ds, (broadcast_listen allow ip user sp tr ds).acks ≤ 1) ∧
    (∀ ds, (broadcast_listen allow ip user sp tr ds).accepted.isSome →
      (broadcast_listen allow ip user sp tr ds).acks = 1 ∧
      (broadcast_listen allow ip user sp tr ds).launched = true ∧
      (broadcast_listen allow ip user sp tr ds).stop
        = some ListenExit.connectAccepted) ∧
    (∀ reqU rest srcIp, ',' ∉ ip → ',' ∉ reqU →
      broadcast_listen allow ip user sp tr
          (⟨connectTag ++ (ip ++ ',' :: reqU), srcIp⟩ :: rest)
        = ⟨[], some reqU, 1, true, some ListenExit.connectAccepted, false⟩) ∧
    (∀ rest srcIp,
      broadcast_listen allow ip user sp tr (⟨disconnectTag, srcIp⟩ :: rest)
        = ⟨[], none, 0, false, some ListenExit.disconnectMsg, allow⟩) := by
  refine ⟨?_, ?_, ?_, ?_⟩
  · intro ds
    induction ds with
    | nil => simp [broadcast_listen]
    | cons d rest ih =>
      cases hc : connect_accept ip d with
      | some u => simp [broadcast_listen, hc]
      | none =>
        by_cases hd : d.content = disconnectTag <;>
          simp [broadcast_listen, hc, hd, ih]
  · intro ds
    induction ds with
    | nil => simp [broadcast_listen]
    | cons d rest ih =>
      cases hc : connect_accept ip d with
      | some u => simp [broadcast_listen, hc]
      | none =>
        by_cases hd : d.content = disconnectTag
        · simp [broadcast_listen, hc, hd]
        · simp [broadcast_listen, hc, hd]
          exact ih
  · intro reqU rest srcIp hip hrequ
    have hstart : strStarts (connectTag ++ (ip ++ ',' :: reqU)) connectTag
        = true := strStarts_append connectTag (ip ++ ',' :: reqU)
    have hnl := connect_not_lookup _ hstart
    have hacc : connect_accept ip ⟨connectTag ++ (ip ++ ',' :: reqU), srcIp⟩
        = some reqU := by
      rw [connect_accept]
      rw [List.drop_left, splitOnComma_append ip reqU hip,
        splitOnComma_no_comma reqU hrequ]
      simp [hstart]
    simp [broadcast_listen, hacc, hnl.1]
  · intro rest srcIp
    have hacc : connect_accept ip ⟨disconnectTag, srcIp⟩ = none := by
      simp [connect_accept, strStarts, disconnectTag, connectTag]
    have hrep : strStarts disconnectTag lookupTag = false := by decide
    simp [broadcast_listen, hacc, hrep]

/-- Witness for C8: a concrete run that accepts a `CONNECT` addressed to
host `"10.0.0.7"` from requester `"bob"` and ignores the rest. -/
theorem broadcast_listen_single_accept_witness :
    broadcast_listen true ['1', '0', '.', '0', '.', '0', '.', '7']
        ['a', 'n', 'n'] 51515 3
        (⟨connectTag ++ (['1', '0', '.', '0', '.', '0', '.', '7'] ++
            ',' :: ['b', 'o', 'b']), ['1', '0', '.', '0', '.', '0', '.', '9']⟩ ::
          [⟨disconnectTag, ['1', '0', '.', '0', '.', '0', '.', '9']⟩])
      = ⟨[], some ['b', 'o', 'b'], 1, true,
          some ListenExit.connectAccepted, false⟩ := by
  exact (broadcast_listen_single_accept true _ _ 51515 3).2.2.1
    ['b', 'o', 'b'] _ _ (by decide) (by decide)

/-- C9: malformed messages are dropped silently and never stop a loop or
alter state — a lookup response without exactly 3 comma-separated fields
is not added to the host list and collection continues; a `CONNECT`
datagram without exactly 2 payload fields is ignored by the broadcast
listener and listening continues; a stream chunk matching none of
`DISCONNECT`/`CHAT`/`GAME` has no effect and the read loop continues. -/
theorem malformed_messages_dropped :
    (∀ d rest, (splitOnComma d.content).length ≠ 3 →
      discover_servers (d :: rest) = discover_servers rest) ∧
    (∀ allow ip user sp tr d rest,
      strStarts d.content connectTag = true →
      (splitOnComma (d.content.drop connectTag.length)).length ≠ 2 →
      broadcast_listen allow ip user sp tr (d :: rest)
        = broadcast_listen allow ip user sp tr rest) ∧
    (∀ hostSide m rest s,
      strStarts m disconnectTag = false →
      strStarts m chatTag = false →
      strStarts m gameTag = false →
      session_loop hostSide (RecvData.chunk m :: rest) s
        = session_loop hostSide rest s) := by
  refine ⟨?_, ?_, ?_⟩
  · intro d rest h
    rcases hs : splitOnComma d.content with _ | ⟨a, _ | ⟨b, _ | ⟨c, _ | ⟨e, t⟩⟩⟩⟩ <;>
      first
      | (exfalso; rw [hs] at h; exact h rfl)
      | simp [discover_servers, hs]
  · intro allow ip user sp tr d rest hc hlen
    have hnl := connect_not_lookup d.content hc
    have hacc : connect_accept ip d = none := by
      rw [connect_accept]
      rcases hs : splitOnComma (d.content.drop connectTag.length) with
          _ | ⟨a, _ | ⟨b, _ | ⟨c, t⟩⟩⟩ <;>
        first
        | (exfalso; rw [hs] at hlen; exact hlen rfl)
        | simp [hc, hs]
    simp [broadcast_listen, hacc, hnl.1, hnl.2]
  · intro hostSide m rest s h1 h2 h3
    simp [session_loop, h1, h2, h3]

/-- Witness for C9: a one-field lookup response is discarded, leaving the
host list the discovery loop accumulates unchanged. -/
theorem malformed_messages_dropped_witness :
    discover_servers [⟨['x'], ['9']⟩] = discover_servers [] := by
  exact malformed_messages_dropped.1 ⟨['x'], ['9']⟩ [] (by decide)

/-- Liveness of the app's worker threads and of the server's accepted
connection at the moment `event_disconnect` runs. -/
structure Threads where
  broadcastAlive : Bool
  serverAlive : Bool
  clientAlive : Bool
  clientConnected : Bool
deriving Repr, DecidableEq

/-- `Server.stop` (rps_app.py 811-820): with a connected client it sends
`DISCONNECT<stage>`; otherwise it just closes the listening socket.
Returns (message sent, listening socket closed). -/
def server_stop (clientConnected : Bool) (stage : List Char) :
    Option (List Char) × Bool :=
  if clientConnected then (some (disconnectTag ++ stage), false)
  else (none, true)

/-- `Client.stop` (rps_app.py 965-971): always sends
`DISCONNECT<stage>`. -/
def client_stop (stage : List Char) : Option (List Char) :=
  some (disconnectTag ++ stage)

/-- Observable effect of one `App.event_disconnect` call: the stream
message sent (if any), whether the UDP self-cancel `DISCONNECT` was
broadcast, whether the server's listening socket was closed directly,
and the resulting profile. -/
structure DisconnectOut where
  sentStream : Option (List Char)
  sentUdpStop : Bool
  listenerClosed : Bool
  profile : Profile
deriving Repr, DecidableEq

/-- The `else` branch of `App.event_disconnect` (rps_app.py 1451-1457),
taken when `current_round` is falsy: cancel a pending hosting offer, or
send a `no_game` disconnect on whichever connection thread is alive. -/
def event_disconnect_nogame (th : Threads) (s : SessionView) :
    DisconnectOut :=
  if th.broadcastAlive then ⟨none, true, false, s.profile⟩
  else if th.serverAlive then
    let r := server_stop th.clientConnected noGameStr
    ⟨r.1, false, r.2, s.profile⟩
  else if th.clientAlive then ⟨client_stop noGameStr, false, false, s.profile⟩
  else ⟨none, false, false, s.profile⟩

/-- `App.event_disconnect` (rps_app.py 1427-1457): when `current_round`
is truthy the user is asked to confirm; on `Proceed` the alive side
sends `DISCONNECT<mid_game>` and `dropout_resolution("quitter")` runs;
on `Cancel` nothing happens; when `current_round` is falsy the no-game
branch runs instead. -/
def event_disconnect (th : Threads) (proceed : Bool) (s : SessionView) :
    DisconnectOut :=
  match s.current_round with
  | some n =>
    if n = 0 then event_disconnect_nogame th s
    else if proceed then
      let sent :=
        if th.serverAlive then server_stop th.clientConnected midGameStr
        else if th.clientAlive then (client_stop midGameStr, false)
        else (none, false)
      ⟨sent.1, false, sent.2,
        dropout_resolution quitterStr n s.total_rounds s.profile⟩
    else ⟨none, false, false, s.profile⟩
  | none => event_disconnect_nogame th s

/-- C10: `current_round` is set to 1 as soon as a connection is
established, so every confirmed local disconnect after connection takes
the mid-game path: any stream message it sends carries stage `mid_game`
(sent whenever the connected side's thread is alive), and
`total_rounds - (current_round - 1)` losses are applied — the full
`total_rounds` when no round has resolved yet; a `no_game` stream
disconnect can only be sent while `current_round` is falsy, i.e. before
a connection exists. -/
theorem midgame_disconnect_after_connect (th : Threads) (s : SessionView)
    (proceed : Bool) :
    (network_connected s).current_round = some 1 ∧
    (∀ n, s.current_round = some n → n ≠ 0 →
      (event_disconnect th true s).profile.loses
          = s.profile.loses + (s.total_rounds - (n - 1)) ∧
      (event_disconnect th true s).sentUdpStop = false ∧
      (∀ m, (event_disconnect th true s).sentStream = some m →
        m = disconnectTag ++ midGameStr) ∧
      (th.serverAlive = true → th.clientConnected = true →
        (event_disconnect th true s).sentStream
          = some (disconnectTag ++ midGameStr)) ∧
      (th.serverAlive = false → th.clientAlive = true →
        (event_disconnect th true s).sentStream
          = some (disconnectTag ++ midGameStr))) ∧
    (s.current_round = some 1 →
      (event_disconnect th true s).profile.loses
          = s.profile.loses + s.total_rounds) ∧
    ((event_disconnect th proceed s).sentStream
        = some (disconnectTag ++ noGameStr) →
      truthyInt s.current_round = false) := by
  have hq : dropout_resolution quitterStr =
      fun cur tot prof => { prof with loses := prof.loses + (tot - (cur - 1)) } := by
    funext cur tot prof
    simp [dropout_resolution, quitterStr, playerStr]
  refine ⟨rfl, ?_, ?_, ?_⟩
  · intro n hn hn0
    refine ⟨?_, ?_, ?_, ?_, ?_⟩ <;>
      cases hsa : th.serverAlive <;> cases hca : th.clientAlive <;>
      cases hcc : th.clientConnected <;>
      simp [event_disconnect, hn, hn0, hq, server_stop, client_stop, hsa,
        hca, hcc]
  · intro hn
    simp [event_disconnect, hn, hq]
  · intro hsent
    have hne : disconnectTag ++ midGameStr ≠ disconnectTag ++ noGameStr := by
      decide
    cases hcr : s.current_round with
    | none => rfl
    | some n =>
      by_cases hn0 : n = 0
      · simp [truthyInt, hn0]
      · exfalso
        rw [event_disconnect, hcr] at hsent
        by_cases hp : proceed <;>
          cases hsa : th.serverAlive <;> cases hca : th.clientAlive <;>
          cases hcc : th.clientConnected <;>
          simp [hn0, hp, hsa, hca, hcc, server_stop, client_stop] at hsent <;>
          first
          | exact hne hsent
          | exact (by decide : midGameStr ≠ noGameStr) hsent

/-- Witness for C10: a connected host (`current_round = 1`) that
confirms a disconnect forfeits all 3 of 3 rounds as losses. -/
theorem midgame_disconnect_after_connect_witness :
    (event_disconnect ⟨false, true, false, true⟩ true connectedState).profile.loses
      = connectedState.profile.loses + connectedState.total_rounds := by
  exact (midgame_disconnect_after_connect ⟨false, true, false, true⟩
    connectedState true).2.2.1 rfl

end RpsApp
